import Mathlib

/-!
# Archi-Logic front-end variants: shallow embedding and verification

This file embeds the state-handling logic of the "Archi-Logic" single-page
applications (variants in `src/App.tsx`, `src/unnamed/part_000`,
`src/unnamed/part_001`) and proves or refutes the specified properties.

Modelling conventions:
* React `useState` fields become fields of an explicit state structure; an
  event handler becomes a function from the state (plus external inputs) to a
  new state together with a record of its observable effects (`Effect`).
* The remote generative API is an external collaborator; the outcome of its
  call is a parameter of the orchestrator (`RemoteOutcome`).
* JavaScript numbers are modelled as exact rationals; at every input the
  claims exercise (600/1000, 1920/1080, ...) the IEEE-double comparisons of
  the source agree with the exact rational comparisons.
* A JS promise that may never settle is modelled by `PromiseOutcome`.
* Namespace `AppTsx` embeds the primary component of `src/App.tsx`;
  namespace `Part000` embeds the primary component of
  `src/unnamed/part_000`.
-/

namespace ArchiLogic

/-- JS `a || b` on strings: first non-empty wins (the empty string is falsy). -/
def jsOr (a b : String) : String := if a = "" then b else a

/-- JS `s.trim()`: strip whitespace from both ends of the string. -/
def jsTrim (s : String) : String :=
  ⟨((s.toList.dropWhile Char.isWhitespace).reverse.dropWhile Char.isWhitespace).reverse⟩

/-- Does `pat` occur at the start of `l`? (helper for substring search) -/
def listHasPre : List Char → List Char → Bool
  | [], _ => true
  | _ :: _, [] => false
  | a :: as, b :: bs => a == b && listHasPre as bs

/-- Does `pat` occur anywhere inside `l`? (models JS `String.includes`) -/
def listHasSub (pat : List Char) : List Char → Bool
  | [] => listHasPre pat []
  | c :: rest => listHasPre pat (c :: rest) || listHasSub pat rest

/-- `strContains s pat` models the JS test `s.includes(pat)`. -/
def strContains (s pat : String) : Bool := listHasSub pat.toList s.toList

/-- Characters of the list after its first comma (helper for `dataPayload`). -/
def afterComma : List Char → List Char
  | [] => []
  | c :: cs => if c = ',' then cs else afterComma cs

/-- Characters of the list up to (excluding) its first comma. -/
def upToComma : List Char → List Char
  | [] => []
  | c :: cs => if c = ',' then [] else c :: upToComma cs

/-- Models JS `dataUrl.split(',')[1]`: the segment between the first and
second comma of a data URL, i.e. the base64 payload. -/
def dataPayload (s : String) : String := ⟨upToComma (afterComma s.toList)⟩

/-- One part of a multimodal request: inline image bytes or an instruction
text block (models the `parts` arrays sent to `generateContent`). -/
inductive Part where
  | image (data : String) (mime : String)
  | text (content : String)
  deriving DecidableEq

/-- The base64 payloads of the image parts, in order of appearance. -/
def imageDatas : List Part → List String
  | [] => []
  | .image d _ :: rest => d :: imageDatas rest
  | .text _ :: rest => imageDatas rest

/-- Is every part of the list a text part? -/
def allTexts (l : List Part) : Bool :=
  l.all fun p => match p with | .text _ => true | .image _ _ => false

/-- Every image part of the list precedes every text part of the list. -/
def imagesBeforeTexts : List Part → Bool
  | [] => true
  | .text _ :: rest => allTexts rest
  | .image _ _ :: rest => imagesBeforeTexts rest

/-- One part of a remote response candidate: `inlineData` carries the
base64 image bytes when present (models the SDK response part). -/
structure RespPart where
  inlineData : Option String
  deriving DecidableEq

/-- Models `response.candidates?.[0]?.content?.parts?.find(p => p.inlineData)`
followed by reading that part's `inlineData`. -/
def findInline (resp : List RespPart) : Option String :=
  match resp.find? (fun p => p.inlineData.isSome) with
  | some p => p.inlineData
  | none => none

/-- The outcome of the remote `generateContent` call, supplied as an external
input to the orchestrator: a response part list, or a thrown error message. -/
inductive RemoteOutcome where
  | success (parts : List RespPart)
  | failure (message : String)
  deriving DecidableEq

/-- The outcome of decoding an uploaded image in the browser (`img.onload`
fires with the pixel dimensions, or never fires for a corrupt file). -/
inductive DecodeOutcome where
  | ok (width height : Nat)
  | failed
  deriving DecidableEq

/-- The observable fate of a JS promise: it resolves with a value, or it
never settles (neither `resolve` nor `reject` is ever called). -/
inductive PromiseOutcome (α : Type) where
  | resolved (value : α)
  | pending
  deriving DecidableEq

/-- The shared `RenderMode` union type of the variants. -/
inductive RenderMode where
  | plan | spatial | enhance
  deriving DecidableEq

/-- The output-resolution tier (`"1K" | "2K" | "4K"`, rendered with a
Chinese suffix in some variants). -/
inductive ImageSize where
  | oneK | twoK | fourK
  deriving DecidableEq

/-- The externally observable effects of one invocation of the synthesis
handler: whether the main `generateContent` request was dispatched (and with
which parts), whether the host key picker was opened, and any `alert`. -/
structure Effect where
  requestDispatched : Bool
  requestParts : List Part
  openedKeyPicker : Bool
  alertMsg : Option String
  deriving DecidableEq

/-- No observable effect. -/
def noEffect : Effect :=
  { requestDispatched := false, requestParts := [], openedKeyPicker := false,
    alertMsg := none }

/-- The effect of dispatching the main request with the given parts. -/
def dispatchEffect (parts : List Part) : Effect :=
  { requestDispatched := true, requestParts := parts, openedKeyPicker := false,
    alertMsg := none }

theorem toList_append (s t : String) : (s ++ t).toList = s.toList ++ t.toList := rfl

theorem string_ext (s t : String) (h : s.toList = t.toList) : s = t := by
  cases s
  cases t
  exact congrArg String.mk h

theorem hasPre_self (pat r : List Char) : listHasPre pat (pat ++ r) = true := by
  induction pat with
  | nil => rfl
  | cons a as ih => simp [listHasPre, ih]

theorem hasSub_start (pat r : List Char) : listHasSub pat (pat ++ r) = true := by
  cases pat with
  | nil => cases r <;> simp [listHasSub, listHasPre]
  | cons a as =>
    simp only [List.cons_append, listHasSub, Bool.or_eq_true]
    exact Or.inl (by simpa using hasPre_self (a :: as) r)

theorem hasSub_middle (pat l r : List Char) : listHasSub pat (l ++ pat ++ r) = true := by
  induction l with
  | nil => simpa using hasSub_start pat r
  | cons c cs ih =>
    simp only [List.cons_append, listHasSub, Bool.or_eq_true]
    exact Or.inr (by simpa using ih)

theorem strContains_middle (a pat b : String) :
    strContains (a ++ pat ++ b) pat = true := by
  simpa [strContains, toList_append] using hasSub_middle pat.toList a.toList b.toList

end ArchiLogic

namespace Part000

open ArchiLogic

/-- `Status` of `src/unnamed/part_000`: `'idle' | 'analyzing' | 'rendering'`. -/
inductive Status where
  | idle | analyzing | rendering
  deriving DecidableEq

/-- The `useState` fields of the primary component of `src/unnamed/part_000`. -/
structure State where
  renderMode : RenderMode
  refImage : Option String
  lineartImage : Option String
  aspectRatio : String
  resultImage : Option String
  status : Status
  dnaData : String
  synthesisScale : Nat
  selectedSize : ImageSize
  manualKey : String
  showKeyPanel : Bool
  deriving DecidableEq

/-- The host-injected environment key (`process.env.API_KEY`, `""` if unset). -/
structure EnvKey where
  envApiKey : String
  deriving DecidableEq

/-- `handleModeSwitch` of `src/unnamed/part_000` lines 25-32: sets the mode
and resets `refImage`, `lineartImage`, `resultImage`, `dnaData`, `status`. -/
def handleModeSwitch (s : State) (mode : RenderMode) : State :=
  { s with renderMode := mode, refImage := none, lineartImage := none,
           resultImage := none, dnaData := "", status := .idle }

/-- The aspect-ratio classifier of `src/unnamed/part_000` lines 93-100 (the
same function appears in the second component of `src/App.tsx`, lines
405-412); `width / height` is taken exactly over the rationals. -/
def calculateAspectRatio (width height : Nat) : String :=
  let ratio : ℚ := (width : ℚ) / (height : ℚ)
  if ratio > 1.5 then "16:9"
  else if ratio > 1.2 then "4:3"
  else if ratio < 0.6 then "9:16"
  else if ratio < 0.8 then "3:4"
  else "1:1"

/-- `getActiveKey` of `src/unnamed/part_000` line 39:
`manualKey || process.env.API_KEY || ""`. -/
def getActiveKey (s : State) (env : EnvKey) : String :=
  jsOr s.manualKey env.envApiKey

/-- `processLineart` of `src/unnamed/part_000` lines 45-62. The promise
executor installs only an `onload` handler on the image: when the browser
decodes the upload, the canvas is filled white, the image drawn on top and
re-encoded (`canvasFlatten` stands for that canvas pipeline, an external
browser capability); when decoding fails neither `resolve` nor `reject` is
ever called, so the promise never settles, modelled by `.pending`. -/
def processLineart (canvasFlatten : String → Nat → Nat → String)
    (decode : DecodeOutcome) (dataUrl : String) : PromiseOutcome String :=
  match decode with
  | .ok w h => .resolved (canvasFlatten dataUrl w h)
  | .failed => .pending

/-- The `modeInstruction` strings of `src/unnamed/part_000` lines 137-148. -/
def modeInstruction : RenderMode → String
  | .plan => "TOPOLOGICAL BASE LAYER: 提供的线稿图是唯一的物理边界。"
  | .spatial => "PERSPECTIVE ANCHOR: 严格遵守线稿图的所有透视线和几何边缘。"
  | .enhance => "HD PIXEL RECONSTRUCTION: 锁定现有构图进行超分辨率增强。"

/-- The synthesis prompt template of `src/unnamed/part_000` lines 150-161
(template-literal line breaks collapsed to single spaces). -/
def synthesisPrompt (s : State) : String :=
  "[CORE PROTOCOL: 100% GEOMETRIC FIDELITY] MODE_CONTEXT: "
    ++ modeInstruction s.renderMode
    ++ " SYNTHESIS_STRENGTH: " ++ toString s.synthesisScale
    ++ "% MATERIAL_PALETTE: " ++ s.dnaData
    ++ " [STRICT INSTRUCTIONS - DO NOT DEVIATE]"
    ++ " 1. 线稿作为绝对模具 (THE MOLD)：黑白线稿是唯一的空间真相。禁止改变、增加或减少任何线条。线条坐标必须100%对齐。"
    ++ " 2. 色彩仅为填充 (COLOR AS FILL ONLY)：将风格图的质感和颜色如同液体一样填充在线稿限定的封闭区域内。"
    ++ " 3. 严禁改写 (NO REDRAWING)：禁止AI根据风格图自发添加家具、墙体或装饰。如果线稿中没有，成果图中就不允许出现。"
    ++ " 4. 线条一致性 (LINE CONSISTENCY)：线条必须清晰、锐利且与原稿位置完全一致。"

/-- The `parts` array built by `executeSynthesis` of `src/unnamed/part_000`
lines 134-162: in plan and spatial modes the style-reference image is pushed
first, then the lineart image, then the prompt text; in enhance mode only
the style-reference image and the prompt text. -/
def composeParts (s : State) : List Part :=
  match s.renderMode with
  | .plan =>
      [.image (dataPayload (s.refImage.getD "")) "image/jpeg",
       .image (dataPayload (s.lineartImage.getD "")) "image/png",
       .text (synthesisPrompt s)]
  | .spatial =>
      [.image (dataPayload (s.refImage.getD "")) "image/jpeg",
       .image (dataPayload (s.lineartImage.getD "")) "image/png",
       .text (synthesisPrompt s)]
  | .enhance =>
      [.image (dataPayload (s.refImage.getD "")) "image/jpeg",
       .text (synthesisPrompt s)]

/-- The try/catch/finally body of `src/unnamed/part_000` lines 164-185 around
the `generateContent` call: on success the first inline-image part (if any)
becomes the new `resultImage`; on an error whose message contains
`"not found"` the key panel is shown; `finally` returns status to idle. -/
def handleRemote (s : State) : RemoteOutcome → State × ArchiLogic.Effect
  | .success resp =>
      match findInline resp with
      | some d =>
          ({ s with resultImage := some ("data:image/png;base64," ++ d),
                    status := .idle },
           dispatchEffect (composeParts s))
      | none => ({ s with status := .idle }, dispatchEffect (composeParts s))
  | .failure msg =>
      if strContains msg "not found" then
        ({ s with status := .idle, showKeyPanel := true },
         dispatchEffect (composeParts s))
      else ({ s with status := .idle }, dispatchEffect (composeParts s))

/-- `executeSynthesis` of `src/unnamed/part_000` lines 125-186: guards on the
presence of `refImage`, on `lineartImage` for non-enhance modes, and on a
non-empty key — but NOT on `status` — then dispatches the composed request
and handles the outcome. -/
def executeSynthesis (s : State) (env : EnvKey) (remote : RemoteOutcome) :
    State × ArchiLogic.Effect :=
  if s.refImage = none then (s, noEffect)
  else if s.renderMode ≠ .enhance ∧ s.lineartImage = none then (s, noEffect)
  else if getActiveKey s env = "" then (s, noEffect)
  else handleRemote s remote

end Part000

namespace AppTsx

open ArchiLogic

/-- `Status` of the primary `src/App.tsx` component: `'idle' | 'rendering'`. -/
inductive Status where
  | idle | rendering
  deriving DecidableEq

/-- `EnhanceParams` of `src/App.tsx` lines 9-14. -/
structure EnhanceParams where
  texture : Nat
  smoothing : Nat
  detail : Nat
  light : Nat
  deriving DecidableEq

/-- The `useState` fields of the primary component of `src/App.tsx`. -/
structure AppState where
  renderMode : RenderMode
  refImage : Option String
  lineartImage : Option String
  resultImage : Option String
  status : Status
  selectedSize : ImageSize
  blendWeight : Nat
  lineartAspectRatio : String
  showKeyModal : Bool
  tempApiKey : String
  manualApiKey : String
  isEnvKeyActive : Bool
  enhanceParams : EnhanceParams
  deriving DecidableEq

/-- The host environment seen by `executeSynthesis` of `src/App.tsx`:
`process.env.API_KEY` (`""` if unset) and whether
`window.aistudio.openSelectKey` is available. -/
structure Env where
  envApiKey : String
  aistudioPicker : Bool
  deriving DecidableEq

/-- `handleModeSwitch` of `src/App.tsx` lines 61-65 (identical in the second
component of `src/unnamed/part_000`, lines 390-394, and in
`src/unnamed/part_001`, lines 59-63): sets the mode and resets only
`resultImage` and `status`. -/
def handleModeSwitch (s : AppState) (mode : RenderMode) : AppState :=
  { s with renderMode := mode, resultImage := none, status := .idle }

/-- The aspect-ratio classifier inside `getImageAspectRatio` of `src/App.tsx`
lines 67-80, as a function of the decoded pixel dimensions; `width / height`
is taken exactly over the rationals. -/
def getImageAspectRatio (width height : Nat) : String :=
  let ratio : ℚ := (width : ℚ) / (height : ℚ)
  if ratio > 1.5 then "16:9"
  else if ratio < 0.6 then "9:16"
  else if ratio > 1.1 then "4:3"
  else if ratio < 0.9 then "3:4"
  else "1:1"

/-- The resolved credential of `src/App.tsx` line 101:
`manualApiKey.trim() || process.env.API_KEY || ''`. -/
def finalKey (s : AppState) (env : Env) : String :=
  jsOr (jsTrim s.manualApiKey) env.envApiKey

/-- The enhance-mode instruction text of `src/App.tsx` line 127: it
interpolates `texture`, `detail` and `light` (not `smoothing`). -/
def enhancePrompt (p : EnhanceParams) : String :=
  "[PROTOCOL: HD_REMASTER] texture: " ++ toString p.texture
    ++ "%, detail: " ++ toString p.detail
    ++ "%, light: " ++ toString p.light
    ++ "%. Enhance quality while preserving architecture lines."

/-- The plan/spatial instruction text of `src/App.tsx` line 131: it
interpolates `blendWeight`. -/
def spatialPrompt (blendWeight : Nat) : String :=
  "[PROTOCOL: SPATIAL_SYNTHESIS] Apply style/materials from Image 2 to the floor plan/CAD structure in Image 1. Blend weight: "
    ++ toString blendWeight ++ "%."

/-- The `parts` array built by `executeSynthesis` of `src/App.tsx` lines
123-132: the lineart image is pushed first; in plan/spatial modes the
style-reference image second; the instruction text last. -/
def composeParts (s : AppState) : List Part :=
  if s.renderMode = .enhance then
    [.image (dataPayload (s.lineartImage.getD "")) "image/png",
     .text (enhancePrompt s.enhanceParams)]
  else
    [.image (dataPayload (s.lineartImage.getD "")) "image/png",
     .image (dataPayload (s.refImage.getD "")) "image/jpeg",
     .text (spatialPrompt s.blendWeight)]

/-- The try/catch/finally body of `src/App.tsx` lines 119-166 around the
`generateContent` call: on success the first inline-image part (if any)
becomes the new `resultImage`; on an error whose message contains
`"Requested entity was not found"`, `"billing"` or `"403"` the key picker is
opened when available, otherwise an alert is shown and the key modal opened;
any other error produces a generic alert; `finally` returns status to idle. -/
def handleRemote (s : AppState) (env : Env) : RemoteOutcome → AppState × ArchiLogic.Effect
  | .success resp =>
      match findInline resp with
      | some d =>
          ({ s with resultImage := some ("data:image/png;base64," ++ d),
                    status := .idle },
           dispatchEffect (composeParts s))
      | none => ({ s with status := .idle }, dispatchEffect (composeParts s))
  | .failure msg =>
      if (strContains msg "Requested entity was not found"
          || strContains msg "billing" || strContains msg "403") then
        if env.aistudioPicker then
          ({ s with status := .idle },
           { dispatchEffect (composeParts s) with openedKeyPicker := true })
        else
          ({ s with status := .idle, showKeyModal := true },
           { dispatchEffect (composeParts s) with
               alertMsg := some "Key error: Please ensure your API key has billing enabled." })
      else
        ({ s with status := .idle },
         { dispatchEffect (composeParts s) with alertMsg := some ("Error: " ++ msg) })

/-- `executeSynthesis` of `src/App.tsx` lines 99-167: resolves the credential
(manual key takes priority over the environment key); when it is missing or
shorter than 10 characters, opens the host key picker if available and
otherwise opens the key modal (copying `manualApiKey` into `tempApiKey`),
dispatching nothing; then guards on `lineartImage`, on `status = idle`, and
on `refImage` for non-enhance modes; then dispatches the composed request
and handles the outcome. -/
def executeSynthesis (s : AppState) (env : Env) (remote : RemoteOutcome) :
    AppState × ArchiLogic.Effect :=
  if (finalKey s env).length < 10 then
    if env.aistudioPicker then
      (s, { noEffect with openedKeyPicker := true })
    else
      ({ s with tempApiKey := s.manualApiKey, showKeyModal := true }, noEffect)
  else if s.lineartImage = none ∨ s.status ≠ .idle then (s, noEffect)
  else if s.renderMode ≠ .enhance ∧ s.refImage = none then (s, noEffect)
  else handleRemote s env remote

end AppTsx

section Claims

open ArchiLogic

/-- A prior state of the primary `src/App.tsx` component holding both
uploaded images and an old result (used to test the mode switch). -/
def modeSwitchState : AppTsx.AppState :=
  { renderMode := .spatial, refImage := some "data:image/jpeg;base64,REF",
    lineartImage := some "data:image/png;base64,LINE",
    resultImage := some "data:image/png;base64,OLD", status := .idle,
    selectedSize := .oneK, blendWeight := 100, lineartAspectRatio := "1:1",
    showKeyModal := false, tempApiKey := "", manualApiKey := "",
    isEnvKeyActive := false, enhanceParams := ⟨99, 10, 90, 70⟩ }

/-- C1 counterexample: in the primary `src/App.tsx` component,
`handleModeSwitch` does NOT clear `refImage` and `lineartImage` — from a
state holding both images, switching to plan mode keeps them. -/
theorem handleModeSwitch_keeps_images_cex :
    ¬ ((AppTsx.handleModeSwitch modeSwitchState .plan).refImage = none ∧
       (AppTsx.handleModeSwitch modeSwitchState .plan).lineartImage = none) := by
  decide

/-- C1 (amended): for every prior state and mode, `handleModeSwitch` sets
`resultImage = null` and `status = idle`; the primary `src/unnamed/part_000`
variant additionally clears `refImage`, `lineartImage` and `dnaData`, while
the `src/App.tsx` variant leaves `refImage` and `lineartImage` unchanged. -/
theorem handleModeSwitch_reset_behavior :
    ∀ (s : AppTsx.AppState) (m : RenderMode) (t : Part000.State) (m' : RenderMode),
      (AppTsx.handleModeSwitch s m).resultImage = none ∧
      (AppTsx.handleModeSwitch s m).status = AppTsx.Status.idle ∧
      (AppTsx.handleModeSwitch s m).refImage = s.refImage ∧
      (AppTsx.handleModeSwitch s m).lineartImage = s.lineartImage ∧
      (Part000.handleModeSwitch t m').refImage = none ∧
      (Part000.handleModeSwitch t m').lineartImage = none ∧
      (Part000.handleModeSwitch t m').resultImage = none ∧
      (Part000.handleModeSwitch t m').status = Part000.Status.idle := by
  intro s m t m'
  exact ⟨rfl, rfl, rfl, rfl, rfl, rfl, rfl, rfl⟩

/-- C2 counterexample: at width 600, height 1000 (ratio exactly 0.6) the
classifier does NOT return `"9:16"`, because the 9:16 bucket requires the
ratio to be strictly less than 0.6. -/
theorem classifier_boundary_cex :
    Part000.calculateAspectRatio 600 1000 ≠ "9:16" := by
  rw [show Part000.calculateAspectRatio 600 1000 = "3:4" from by
    norm_num [Part000.calculateAspectRatio]]
  decide

/-- C2 (amended): at width 600, height 1000 (ratio exactly 0.6) both
classifier variants return `"3:4"`: 0.6 fails the strict `ratio < 0.6` test
for 9:16 and satisfies the next test (`ratio < 0.8` resp. `ratio < 0.9`). -/
theorem classifier_boundary_value :
    Part000.calculateAspectRatio 600 1000 = "3:4" ∧
    AppTsx.getImageAspectRatio 600 1000 = "3:4" := by
  constructor
  · norm_num [Part000.calculateAspectRatio]
  · norm_num [AppTsx.getImageAspectRatio]

/-- Enhance parameters whose `smoothing` value (55) shares no digits with
the other slider values, to expose its absence from the prompt. -/
def smoothingParams : AppTsx.EnhanceParams :=
  { texture := 99, smoothing := 55, detail := 90, light := 70 }

/-- C7 counterexample: the enhance-mode instruction text of `src/App.tsx`
does NOT contain the `smoothing` parameter value — with smoothing 55 the
string "55" occurs nowhere in the prompt, so not all four enhance
parameters appear. -/
theorem enhancePrompt_smoothing_cex :
    strContains (AppTsx.enhancePrompt smoothingParams)
      (toString smoothingParams.smoothing) = false := by
  decide

/-- C7 (amended): for every parameter record, the composed instruction text
contains the `texture`, `detail` and `light` values verbatim in enhance
mode, and the `blendWeight` value verbatim in plan/spatial modes; the
`smoothing` parameter is never interpolated into the prompt. -/
theorem prompt_contains_params :
    ∀ (p : AppTsx.EnhanceParams) (w : Nat),
      strContains (AppTsx.enhancePrompt p) (toString p.texture) = true ∧
      strContains (AppTsx.enhancePrompt p) (toString p.detail) = true ∧
      strContains (AppTsx.enhancePrompt p) (toString p.light) = true ∧
      strContains (AppTsx.spatialPrompt w) (toString w) = true := by
  intro p w
  refine ⟨?_, ?_, ?_, ?_⟩
  · rw [show AppTsx.enhancePrompt p =
        "[PROTOCOL: HD_REMASTER] texture: " ++ toString p.texture ++
          ("%, detail: " ++ toString p.detail ++ "%, light: " ++ toString p.light
            ++ "%. Enhance quality while preserving architecture lines.") from
      string_ext _ _ (by simp [AppTsx.enhancePrompt, toList_append, List.append_assoc])]
    exact strContains_middle _ _ _
  · rw [show AppTsx.enhancePrompt p =
        ("[PROTOCOL: HD_REMASTER] texture: " ++ toString p.texture ++ "%, detail: ")
          ++ toString p.detail ++
          ("%, light: " ++ toString p.light
            ++ "%. Enhance quality while preserving architecture lines.") from
      string_ext _ _ (by simp [AppTsx.enhancePrompt, toList_append, List.append_assoc])]
    exact strContains_middle _ _ _
  · rw [show AppTsx.enhancePrompt p =
        ("[PROTOCOL: HD_REMASTER] texture: " ++ toString p.texture ++ "%, detail: "
            ++ toString p.detail ++ "%, light: ")
          ++ toString p.light ++
          "%. Enhance quality while preserving architecture lines." from
      string_ext _ _ (by simp [AppTsx.enhancePrompt, toList_append, List.append_assoc])]
    exact strContains_middle _ _ _
  · rw [show AppTsx.spatialPrompt w =
        "[PROTOCOL: SPATIAL_SYNTHESIS] Apply style/materials from Image 2 to the floor plan/CAD structure in Image 1. Blend weight: "
          ++ toString w ++ "%." from
      string_ext _ _ (by simp [AppTsx.spatialPrompt, toList_append, List.append_assoc])]
    exact strContains_middle _ _ _

/-- C8: `processLineart` of `src/unnamed/part_000` installs only an `onload`
handler; for a corrupt upload whose browser decode fails, the promise never
settles — no `DecodeError` is ever produced and the operation does not
terminate, for any canvas pipeline and any data URL. -/
theorem processLineart_decode_failure_pending :
    ∀ (canvasFlatten : String → Nat → Nat → String) (dataUrl : String),
      Part000.processLineart canvasFlatten .failed dataUrl =
        ArchiLogic.PromiseOutcome.pending := by
  intro canvasFlatten dataUrl
  rfl

/-- C9: for all positive dimensions the classifier is total, returns exactly
one tag of the fixed set, and is a pure function (same input, same tag). -/
theorem classifier_total_deterministic :
    ∀ (w h : Nat), 0 < w → 0 < h →
      (Part000.calculateAspectRatio w h = "16:9" ∨
       Part000.calculateAspectRatio w h = "4:3" ∨
       Part000.calculateAspectRatio w h = "9:16" ∨
       Part000.calculateAspectRatio w h = "3:4" ∨
       Part000.calculateAspectRatio w h = "1:1") ∧
      Part000.calculateAspectRatio w h = Part000.calculateAspectRatio w h := by
  intro w h hw hh
  refine ⟨?_, rfl⟩
  simp only [Part000.calculateAspectRatio]
  split
  · exact Or.inl rfl
  split
  · exact Or.inr (Or.inl rfl)
  split
  · exact Or.inr (Or.inr (Or.inl rfl))
  split
  · exact Or.inr (Or.inr (Or.inr (Or.inl rfl)))
  · exact Or.inr (Or.inr (Or.inr (Or.inr rfl)))

/-- C9 witness: the classifier property instantiated at 1920 by 1080. -/
theorem classifier_total_deterministic_witness :
    (Part000.calculateAspectRatio 1920 1080 = "16:9" ∨
     Part000.calculateAspectRatio 1920 1080 = "4:3" ∨
     Part000.calculateAspectRatio 1920 1080 = "9:16" ∨
     Part000.calculateAspectRatio 1920 1080 = "3:4" ∨
     Part000.calculateAspectRatio 1920 1080 = "1:1") ∧
    Part000.calculateAspectRatio 1920 1080 = Part000.calculateAspectRatio 1920 1080 :=
  classifier_total_deterministic 1920 1080 (by decide) (by decide)

end Claims

section Claims2

open ArchiLogic

/-- A `src/unnamed/part_000` state that is mid-analysis (`status =
'analyzing'`) with both images and a key present. -/
def busyState : Part000.State :=
  { renderMode := .plan, refImage := some "data:image/jpeg;base64,REF",
    lineartImage := some "data:image/png;base64,LINE", aspectRatio := "4:3",
    resultImage := none, status := .analyzing, dnaData := "",
    synthesisScale := 100, selectedSize := .oneK,
    manualKey := "sk-0123456789", showKeyPanel := false }

/-- C3 counterexample: `executeSynthesis` of `src/unnamed/part_000` contains
no `status` guard at all — invoked while `status = 'analyzing'` with both
images and a key present, it DOES dispatch a second network request. -/
theorem executeSynthesis_busy_dispatch_cex :
    busyState.status ≠ Part000.Status.idle ∧
    (Part000.executeSynthesis busyState ⟨""⟩ (.success [])).2.requestDispatched = true := by
  decide

/-- C3 (amended): in the `src/App.tsx` variant, triggering `executeSynthesis`
while `status ≠ 'idle'` never dispatches a network request, and when the
resolved credential is valid (length at least 10) it changes no state field;
when no valid credential resolves, the credential-entry state may still
change, and the `src/unnamed/part_000` variant keeps its status guard only
on the disabled button, not inside the function. -/
theorem executeSynthesis_busy_no_dispatch :
    ∀ (s : AppTsx.AppState) (env : AppTsx.Env) (remote : RemoteOutcome),
      s.status ≠ AppTsx.Status.idle →
      (AppTsx.executeSynthesis s env remote).2.requestDispatched = false ∧
      (10 ≤ (AppTsx.finalKey s env).length →
        (AppTsx.executeSynthesis s env remote).1 = s) := by
  intro s env remote hbusy
  unfold AppTsx.executeSynthesis
  by_cases hk : (AppTsx.finalKey s env).length < 10
  · rw [if_pos hk]
    by_cases hp : env.aistudioPicker = true
    · rw [if_pos hp]
      exact ⟨rfl, fun h => absurd hk (by omega)⟩
    · rw [if_neg hp]
      exact ⟨rfl, fun h => absurd hk (by omega)⟩
  · rw [if_neg hk, if_pos (Or.inr hbusy)]
    exact ⟨rfl, fun _ => rfl⟩

/-- A `src/App.tsx` state that is mid-render with a valid manual key. -/
def busyAppState : AppTsx.AppState :=
  { renderMode := .spatial, refImage := some "data:image/jpeg;base64,REF",
    lineartImage := some "data:image/png;base64,LINE", resultImage := none,
    status := .rendering, selectedSize := .oneK, blendWeight := 100,
    lineartAspectRatio := "1:1", showKeyModal := false, tempApiKey := "",
    manualApiKey := "sk-0123456789", isEnvKeyActive := false,
    enhanceParams := ⟨99, 10, 90, 70⟩ }

/-- C3 witness: the amended property instantiated at a rendering state. -/
theorem executeSynthesis_busy_no_dispatch_witness :
    (AppTsx.executeSynthesis busyAppState ⟨"", false⟩ (.failure "boom")).2.requestDispatched = false ∧
    (AppTsx.executeSynthesis busyAppState ⟨"", false⟩ (.failure "boom")).1 = busyAppState := by
  have h := executeSynthesis_busy_no_dispatch busyAppState ⟨"", false⟩ (.failure "boom") (by decide)
  exact ⟨h.1, h.2 (by decide)⟩

/-- C4: credential resolution of `src/App.tsx`: a non-empty trimmed manual
key wins over the environment key; an empty trimmed manual key falls back
to the environment key; and when the resolved key is missing or shorter
than 10 characters, no request is dispatched and the credential-acquisition
flow is surfaced (the host picker when available, the key modal — seeded
with the manual key — otherwise). -/
theorem credential_priority_guard :
    ∀ (s : AppTsx.AppState) (env : AppTsx.Env) (remote : RemoteOutcome),
      (jsTrim s.manualApiKey ≠ "" → AppTsx.finalKey s env = jsTrim s.manualApiKey) ∧
      (jsTrim s.manualApiKey = "" → AppTsx.finalKey s env = env.envApiKey) ∧
      ((AppTsx.finalKey s env).length < 10 →
        (AppTsx.executeSynthesis s env remote).2.requestDispatched = false ∧
        (env.aistudioPicker = true →
          (AppTsx.executeSynthesis s env remote).2.openedKeyPicker = true) ∧
        (env.aistudioPicker = false →
          (AppTsx.executeSynthesis s env remote).1.showKeyModal = true ∧
          (AppTsx.executeSynthesis s env remote).1.tempApiKey = s.manualApiKey)) := by
  intro s env remote
  refine ⟨?_, ?_, ?_⟩
  · intro h
    unfold AppTsx.finalKey jsOr
    rw [if_neg h]
  · intro h
    unfold AppTsx.finalKey jsOr
    rw [if_pos h]
  · intro hk
    unfold AppTsx.executeSynthesis
    rw [if_pos hk]
    by_cases hp : env.aistudioPicker = true
    · rw [if_pos hp]
      exact ⟨rfl, fun _ => rfl, fun hfalse => absurd hp (by simp [hfalse])⟩
    · rw [if_neg hp]
      exact ⟨rfl, fun htrue => absurd htrue hp, fun _ => ⟨rfl, rfl⟩⟩

/-- A `src/App.tsx` state with a non-empty but too-short manual key, while a
valid environment key exists. -/
def shortKeyState : AppTsx.AppState :=
  { renderMode := .spatial, refImage := some "data:image/jpeg;base64,REF",
    lineartImage := some "data:image/png;base64,LINE", resultImage := none,
    status := .idle, selectedSize := .oneK, blendWeight := 100,
    lineartAspectRatio := "1:1", showKeyModal := false, tempApiKey := "",
    manualApiKey := "short", isEnvKeyActive := false,
    enhanceParams := ⟨99, 10, 90, 70⟩ }

/-- C4 witness: the credential policy instantiated at a state whose manual
key is "short": it wins over the environment key, and being invalid the
call dispatches nothing and opens the key modal. -/
theorem credential_priority_guard_witness :
    AppTsx.finalKey shortKeyState ⟨"envkey123456", false⟩ = jsTrim shortKeyState.manualApiKey ∧
    (AppTsx.executeSynthesis shortKeyState ⟨"envkey123456", false⟩ (.success [])).2.requestDispatched = false ∧
    (AppTsx.executeSynthesis shortKeyState ⟨"envkey123456", false⟩ (.success [])).1.showKeyModal = true := by
  have h := credential_priority_guard shortKeyState ⟨"envkey123456", false⟩ (.success [])
  have hk : (AppTsx.finalKey shortKeyState ⟨"envkey123456", false⟩).length < 10 := by decide
  exact ⟨h.1 (by decide), (h.2.2 hk).1, ((h.2.2 hk).2.2 rfl).1⟩

/-- C5: when the main call of `src/App.tsx` fails, the status returns to
idle and the previous `resultImage` is untouched for every error message;
and when the message contains "billing" the credential flow is re-invoked
(the host picker is opened, or the key modal is shown). -/
theorem billing_error_credential_flow :
    ∀ (s : AppTsx.AppState) (env : AppTsx.Env) (msg : String),
      10 ≤ (AppTsx.finalKey s env).length →
      s.status = AppTsx.Status.idle →
      s.lineartImage ≠ none →
      (s.renderMode = .enhance ∨ s.refImage ≠ none) →
      (AppTsx.executeSynthesis s env (.failure msg)).1.status = AppTsx.Status.idle ∧
      (AppTsx.executeSynthesis s env (.failure msg)).1.resultImage = s.resultImage ∧
      (strContains msg "billing" = true →
        (AppTsx.executeSynthesis s env (.failure msg)).2.openedKeyPicker = true ∨
        (AppTsx.executeSynthesis s env (.failure msg)).1.showKeyModal = true) := by
  intro s env msg hk hidle hline href
  have hk' : ¬ (AppTsx.finalKey s env).length < 10 := by omega
  have hg2 : ¬ (s.lineartImage = none ∨ s.status ≠ AppTsx.Status.idle) :=
    fun hor => hor.elim (fun ha => hline ha) (fun hb => hb hidle)
  have hg3 : ¬ (s.renderMode ≠ .enhance ∧ s.refImage = none) := by
    rintro ⟨hne, hrefnone⟩
    rcases href with h | h
    · exact hne h
    · exact h hrefnone
  unfold AppTsx.executeSynthesis
  rw [if_neg hk', if_neg hg2, if_neg hg3]
  simp only [AppTsx.handleRemote]
  by_cases hb : (strContains msg "Requested entity was not found"
      || strContains msg "billing" || strContains msg "403") = true
  · rw [if_pos hb]
    by_cases hp : env.aistudioPicker = true
    · rw [if_pos hp]
      exact ⟨rfl, rfl, fun _ => Or.inl rfl⟩
    · rw [if_neg hp]
      exact ⟨rfl, rfl, fun _ => Or.inr rfl⟩
  · rw [if_neg hb]
    refine ⟨rfl, rfl, fun hbill => absurd ?_ hb⟩
    simp [hbill]

/-- A `src/App.tsx` state holding a previous result, ready to render. -/
def billingState : AppTsx.AppState :=
  { renderMode := .spatial, refImage := some "data:image/jpeg;base64,REF",
    lineartImage := some "data:image/png;base64,LINE",
    resultImage := some "data:image/png;base64,OLD", status := .idle,
    selectedSize := .oneK, blendWeight := 100, lineartAspectRatio := "1:1",
    showKeyModal := false, tempApiKey := "", manualApiKey := "sk-0123456789",
    isEnvKeyActive := false, enhanceParams := ⟨99, 10, 90, 70⟩ }

/-- C5 witness: the failure-handling property instantiated at a concrete
state and the error message "billing required". -/
theorem billing_error_credential_flow_witness :
    (AppTsx.executeSynthesis billingState ⟨"", false⟩ (.failure "billing required")).1.status = AppTsx.Status.idle ∧
    (AppTsx.executeSynthesis billingState ⟨"", false⟩ (.failure "billing required")).1.resultImage = billingState.resultImage ∧
    ((AppTsx.executeSynthesis billingState ⟨"", false⟩ (.failure "billing required")).2.openedKeyPicker = true ∨
     (AppTsx.executeSynthesis billingState ⟨"", false⟩ (.failure "billing required")).1.showKeyModal = true) := by
  have h := billing_error_credential_flow billingState ⟨"", false⟩ "billing required"
    (by decide) (by decide) (by decide) (by decide)
  exact ⟨h.1, h.2.1, h.2.2 (by decide)⟩

/-- A `src/unnamed/part_000` plan-mode state with both images present. -/
def planState : Part000.State :=
  { renderMode := .plan, refImage := some "data:image/jpeg;base64,REF",
    lineartImage := some "data:image/png;base64,LINE", aspectRatio := "4:3",
    resultImage := none, status := .idle, dnaData := "",
    synthesisScale := 100, selectedSize := .oneK,
    manualKey := "sk-0123456789", showKeyPanel := false }

/-- C6 counterexample: in `src/unnamed/part_000` plan mode the FIRST image
part of the composed request is the style-reference image, not the
geometry/lineart image. -/
theorem composeParts_ref_first_cex :
    (imageDatas (Part000.composeParts planState)).head? ≠
      some (dataPayload (planState.lineartImage.getD "")) := by
  decide

/-- C6 (amended): in every composed two-image request all image parts
precede the instruction text; the `src/App.tsx` variant puts the lineart
image first and the style-reference image second, while the
`src/unnamed/part_000` variant puts the style-reference image first and the
lineart image second. -/
theorem composeParts_ordering :
    ∀ (a : AppTsx.AppState) (p : Part000.State),
      a.renderMode ≠ .enhance → p.renderMode ≠ .enhance →
      imageDatas (AppTsx.composeParts a) =
        [dataPayload (a.lineartImage.getD ""), dataPayload (a.refImage.getD "")] ∧
      imagesBeforeTexts (AppTsx.composeParts a) = true ∧
      imageDatas (Part000.composeParts p) =
        [dataPayload (p.refImage.getD ""), dataPayload (p.lineartImage.getD "")] ∧
      imagesBeforeTexts (Part000.composeParts p) = true := by
  intro a p ha hp
  refine ⟨?_, ?_, ?_, ?_⟩
  · unfold AppTsx.composeParts
    rw [if_neg ha]
    simp [imageDatas]
  · unfold AppTsx.composeParts
    rw [if_neg ha]
    simp [imagesBeforeTexts, allTexts]
  · cases hm : p.renderMode with
    | plan => simp [Part000.composeParts, hm, imageDatas]
    | spatial => simp [Part000.composeParts, hm, imageDatas]
    | enhance => exact absurd hm hp
  · cases hm : p.renderMode with
    | plan => simp [Part000.composeParts, hm, imagesBeforeTexts, allTexts]
    | spatial => simp [Part000.composeParts, hm, imagesBeforeTexts, allTexts]
    | enhance => exact absurd hm hp

/-- A `src/App.tsx` spatial-mode state with both images present. -/
def spatialAppState : AppTsx.AppState :=
  { renderMode := .spatial, refImage := some "data:image/jpeg;base64,REF2",
    lineartImage := some "data:image/png;base64,LINE2", resultImage := none,
    status := .idle, selectedSize := .oneK, blendWeight := 80,
    lineartAspectRatio := "1:1", showKeyModal := false, tempApiKey := "",
    manualApiKey := "sk-0123456789", isEnvKeyActive := false,
    enhanceParams := ⟨99, 10, 90, 70⟩ }

/-- C6 witness: the ordering property instantiated at concrete spatial and
plan states of the two variants. -/
theorem composeParts_ordering_witness :
    imageDatas (AppTsx.composeParts spatialAppState) =
      [dataPayload (spatialAppState.lineartImage.getD ""),
       dataPayload (spatialAppState.refImage.getD "")] ∧
    imagesBeforeTexts (AppTsx.composeParts spatialAppState) = true ∧
    imageDatas (Part000.composeParts planState) =
      [dataPayload (planState.refImage.getD ""),
       dataPayload (planState.lineartImage.getD "")] ∧
    imagesBeforeTexts (Part000.composeParts planState) = true :=
  composeParts_ordering spatialAppState planState (by decide) (by decide)

theorem appstate_set_idle (s : AppTsx.AppState) (h : s.status = AppTsx.Status.idle) :
    { s with status := AppTsx.Status.idle } = s := by
  cases s
  dsimp only at h
  subst h
  rfl

theorem part000_set_idle (t : Part000.State) (h : t.status = Part000.Status.idle) :
    { t with status := Part000.Status.idle } = t := by
  cases t
  dsimp only at h
  subst h
  rfl

/-- C10: when the main call succeeds but the response holds no inline-image
part, `executeSynthesis` (both in `src/App.tsx` and in
`src/unnamed/part_000`) leaves the whole state — in particular the previous
`resultImage` — unchanged, surfaces no alert, and ends with status idle. -/
theorem no_image_response_keeps_state :
    ∀ (s : AppTsx.AppState) (env : AppTsx.Env) (resp : List RespPart)
      (t : Part000.State) (envK : Part000.EnvKey) (resp2 : List RespPart),
      10 ≤ (AppTsx.finalKey s env).length →
      s.status = AppTsx.Status.idle →
      s.lineartImage ≠ none →
      (s.renderMode = .enhance ∨ s.refImage ≠ none) →
      findInline resp = none →
      t.refImage ≠ none →
      (t.renderMode ≠ .enhance → t.lineartImage ≠ none) →
      Part000.getActiveKey t envK ≠ "" →
      t.status = Part000.Status.idle →
      findInline resp2 = none →
      (AppTsx.executeSynthesis s env (.success resp)).1 = s ∧
      (AppTsx.executeSynthesis s env (.success resp)).2.alertMsg = none ∧
      (Part000.executeSynthesis t envK (.success resp2)).1 = t ∧
      (Part000.executeSynthesis t envK (.success resp2)).2.alertMsg = none := by
  intro s env resp t envK resp2 hk hidle hline href hfind tref tline tkey tidle hfind2
  have hk' : ¬ (AppTsx.finalKey s env).length < 10 := by omega
  have hg2 : ¬ (s.lineartImage = none ∨ s.status ≠ AppTsx.Status.idle) :=
    fun hor => hor.elim (fun ha => hline ha) (fun hb => hb hidle)
  have hg3 : ¬ (s.renderMode ≠ .enhance ∧ s.refImage = none) := by
    rintro ⟨hne, hrefnone⟩
    rcases href with h | h
    · exact hne h
    · exact h hrefnone
  have tg2 : ¬ (t.renderMode ≠ .enhance ∧ t.lineartImage = none) := by
    rintro ⟨hne, hnone⟩
    exact tline hne hnone
  unfold AppTsx.executeSynthesis Part000.executeSynthesis
  rw [if_neg hk', if_neg hg2, if_neg hg3, if_neg tref, if_neg tg2, if_neg tkey]
  simp only [AppTsx.handleRemote, Part000.handleRemote, hfind, hfind2]
  exact ⟨appstate_set_idle s hidle, rfl, part000_set_idle t tidle, rfl⟩

/-- A `src/App.tsx` state with an old result, ready for a new render. -/
def successAppState : AppTsx.AppState :=
  { renderMode := .spatial, refImage := some "data:image/jpeg;base64,R3",
    lineartImage := some "data:image/png;base64,L3",
    resultImage := some "data:image/png;base64,OLD3", status := .idle,
    selectedSize := .oneK, blendWeight := 100, lineartAspectRatio := "1:1",
    showKeyModal := false, tempApiKey := "", manualApiKey := "sk-0123456789",
    isEnvKeyActive := false, enhanceParams := ⟨99, 10, 90, 70⟩ }

/-- A `src/unnamed/part_000` state with an old result, ready to render. -/
def successPartState : Part000.State :=
  { renderMode := .spatial, refImage := some "data:image/jpeg;base64,R4",
    lineartImage := some "data:image/png;base64,L4", aspectRatio := "1:1",
    resultImage := some "data:image/png;base64,OLD4", status := .idle,
    dnaData := "dna", synthesisScale := 50, selectedSize := .twoK,
    manualKey := "k", showKeyPanel := false }

/-- C10 witness: the frame property instantiated at concrete states and a
successful response whose only part carries no inline data. -/
theorem no_image_response_keeps_state_witness :
    (AppTsx.executeSynthesis successAppState ⟨"", false⟩ (.success [⟨none⟩])).1 = successAppState ∧
    (AppTsx.executeSynthesis successAppState ⟨"", false⟩ (.success [⟨none⟩])).2.alertMsg = none ∧
    (Part000.executeSynthesis successPartState ⟨""⟩ (.success [⟨none⟩])).1 = successPartState ∧
    (Part000.executeSynthesis successPartState ⟨""⟩ (.success [⟨none⟩])).2.alertMsg = none :=
  no_image_response_keeps_state successAppState ⟨"", false⟩ [⟨none⟩]
    successPartState ⟨""⟩ [⟨none⟩]
    (by decide) (by decide) (by decide) (by decide) (by decide)
    (by decide) (by decide) (by decide) (by decide) (by decide)

end Claims2
